import Mathlib

/-!
Verification of the compatibility scoring and discovery core of the dating
backend. The definitions below are shallow embeddings of the TypeScript
sources: `PersonalityService` (trait scoring, pairwise compatibility, the
compatibility cache) and `MatchService` (discovery filtering and the
like/match transition). JavaScript numbers are modelled as rationals,
`Math.round` as the half-up floor, JS falsiness of `0`/`null` explicitly,
and nullable database columns as `Option` values.
-/

namespace DatingCore

/-- JS `Math.round`: round half toward positive infinity. -/
def jsRound (x : ℚ) : ℤ := ⌊x + 1/2⌋

/-- The 12 trait columns of a profile row; each is a nullable decimal. -/
structure TraitVec where
  extroversion : Option ℚ
  openness : Option ℚ
  conscientiousness : Option ℚ
  agreeableness : Option ℚ
  emotional_stability : Option ℚ
  growth_mindset : Option ℚ
  collectivism : Option ℚ
  spiritual_inclination : Option ℚ
  veganism_support : Option ℚ
  environmental_consciousness : Option ℚ
  health_focus : Option ℚ
  social_justice : Option ℚ
deriving DecidableEq, Repr

/-- JS `Number(x)` on a nullable column: `null` becomes 0. -/
def rawVal (x : Option ℚ) : ℚ := x.getD 0

/-- JS `Number(x) || 0.5`: a value of 0 (so also `null`) becomes the neutral 0.5. -/
def normVal (x : Option ℚ) : ℚ := if rawVal x = 0 then 1/2 else rawVal x

/-- The special extroversion adjustment: if the difference is within 0.1 of
the optimal difference 0.3, subtract 0.1 (floored at 0). -/
def adjDiff (isExtro : Bool) (d : ℚ) : ℚ :=
  if isExtro = true ∧ |d - 3/10| < 1/10 then max 0 (d - 1/10) else d

/-- Per-core-trait similarity `max(0, 1 - difference)` after normalisation
and the extroversion adjustment. -/
def coreTraitCompat (isExtro : Bool) (a b : Option ℚ) : ℚ :=
  max 0 (1 - adjDiff isExtro |normVal a - normVal b|)

/-- Per-lifestyle-trait similarity `max(0, 1 - |a b difference|)`. -/
def lifestyleTraitCompat (a b : Option ℚ) : ℚ :=
  max 0 (1 - |normVal a - normVal b|)

/-- Deal-breaker test on one sensitive lifestyle trait:
`difference > 0.6 && (val1 > 0.8 || val2 > 0.8)`. -/
def dealBreaker (a b : Option ℚ) : Bool :=
  decide (3/5 < |normVal a - normVal b| ∧ (4/5 < normVal a ∨ 4/5 < normVal b))

/-- Core personality component: mean of the 8 core similarities, times 60. -/
def corePersonalityScore (u1 u2 : TraitVec) : ℚ :=
  ((coreTraitCompat true u1.extroversion u2.extroversion
    + coreTraitCompat false u1.openness u2.openness
    + coreTraitCompat false u1.conscientiousness u2.conscientiousness
    + coreTraitCompat false u1.agreeableness u2.agreeableness
    + coreTraitCompat false u1.emotional_stability u2.emotional_stability
    + coreTraitCompat false u1.growth_mindset u2.growth_mindset
    + coreTraitCompat false u1.collectivism u2.collectivism
    + coreTraitCompat false u1.spiritual_inclination u2.spiritual_inclination) / 8) * 60

/-- Lifestyle component: mean of the 4 lifestyle similarities, times 40. -/
def lifestyleCompatibilityScore (u1 u2 : TraitVec) : ℚ :=
  ((lifestyleTraitCompat u1.veganism_support u2.veganism_support
    + lifestyleTraitCompat u1.environmental_consciousness u2.environmental_consciousness
    + lifestyleTraitCompat u1.health_focus u2.health_focus
    + lifestyleTraitCompat u1.social_justice u2.social_justice) / 4) * 40

/-- The `criticalMismatch` flag: deal-breaker on veganism_support,
environmental_consciousness or social_justice. -/
def criticalMismatch (u1 u2 : TraitVec) : Bool :=
  dealBreaker u1.veganism_support u2.veganism_support
  || dealBreaker u1.environmental_consciousness u2.environmental_consciousness
  || dealBreaker u1.social_justice u2.social_justice

/-- Complementary extroversion bonus; note the source uses the raw column
values here (`Number(user1.extroversion)`), without the `|| 0.5` fallback. -/
def extroBonus (u1 u2 : TraitVec) : ℚ :=
  if |(|rawVal u1.extroversion - rawVal u2.extroversion|) - 3/10| < 1/10 then 10 else 0

/-- Mutual growth-mindset bonus; also computed on raw column values. -/
def growthBonus (u1 u2 : TraitVec) : ℚ :=
  if 7/10 < rawVal u1.growth_mindset ∧ 7/10 < rawVal u2.growth_mindset then 10 else 0

/-- The running `finalScore`: personality + lifestyle, halved on a critical
mismatch, then the two bonuses. -/
def finalScore (u1 u2 : TraitVec) : ℚ :=
  (if criticalMismatch u1 u2
    then (corePersonalityScore u1 u2 + lifestyleCompatibilityScore u1 u2) * (1/2)
    else corePersonalityScore u1 u2 + lifestyleCompatibilityScore u1 u2)
  + extroBonus u1 u2 + growthBonus u1 u2

/-- The per-trait similarity breakdown (`traitScores`), each entry
`Math.round(traitCompatibility * 100)`. -/
structure TraitScoresRec where
  extroversion : ℤ
  openness : ℤ
  conscientiousness : ℤ
  agreeableness : ℤ
  emotional_stability : ℤ
  growth_mindset : ℤ
  collectivism : ℤ
  spiritual_inclination : ℤ
  veganism_support : ℤ
  environmental_consciousness : ℤ
  health_focus : ℤ
  social_justice : ℤ
deriving DecidableEq, Repr

def traitScoresOf (u1 u2 : TraitVec) : TraitScoresRec where
  extroversion := jsRound (coreTraitCompat true u1.extroversion u2.extroversion * 100)
  openness := jsRound (coreTraitCompat false u1.openness u2.openness * 100)
  conscientiousness := jsRound (coreTraitCompat false u1.conscientiousness u2.conscientiousness * 100)
  agreeableness := jsRound (coreTraitCompat false u1.agreeableness u2.agreeableness * 100)
  emotional_stability := jsRound (coreTraitCompat false u1.emotional_stability u2.emotional_stability * 100)
  growth_mindset := jsRound (coreTraitCompat false u1.growth_mindset u2.growth_mindset * 100)
  collectivism := jsRound (coreTraitCompat false u1.collectivism u2.collectivism * 100)
  spiritual_inclination := jsRound (coreTraitCompat false u1.spiritual_inclination u2.spiritual_inclination * 100)
  veganism_support := jsRound (lifestyleTraitCompat u1.veganism_support u2.veganism_support * 100)
  environmental_consciousness := jsRound (lifestyleTraitCompat u1.environmental_consciousness u2.environmental_consciousness * 100)
  health_focus := jsRound (lifestyleTraitCompat u1.health_focus u2.health_focus * 100)
  social_justice := jsRound (lifestyleTraitCompat u1.social_justice u2.social_justice * 100)

/-- The breakdown returned by `calculateCompatibilityScores`. -/
structure CompatBreakdown where
  overallScore : ℤ
  personalityScore : ℤ
  lifestyleScore : ℤ
  traitScores : TraitScoresRec
deriving DecidableEq, Repr

/-- Embedding of `PersonalityService.calculateCompatibilityScores`. -/
def calculateCompatibilityScores (u1 u2 : TraitVec) : CompatBreakdown where
  overallScore := jsRound (min 100 (max 0 (finalScore u1 u2)))
  personalityScore := jsRound (corePersonalityScore u1 u2)
  lifestyleScore := jsRound (lifestyleCompatibilityScore u1 u2)
  traitScores := traitScoresOf u1 u2

/-! Symmetry of every ingredient of the calculator. -/

lemma coreTraitCompat_comm (e : Bool) (a b : Option ℚ) :
    coreTraitCompat e a b = coreTraitCompat e b a := by
  unfold coreTraitCompat
  rw [abs_sub_comm]

lemma lifestyleTraitCompat_comm (a b : Option ℚ) :
    lifestyleTraitCompat a b = lifestyleTraitCompat b a := by
  unfold lifestyleTraitCompat
  rw [abs_sub_comm]

lemma dealBreaker_comm (a b : Option ℚ) : dealBreaker a b = dealBreaker b a := by
  unfold dealBreaker
  rw [decide_eq_decide, abs_sub_comm]
  tauto

lemma corePersonalityScore_comm (u1 u2 : TraitVec) :
    corePersonalityScore u1 u2 = corePersonalityScore u2 u1 := by
  unfold corePersonalityScore
  rw [coreTraitCompat_comm true u1.extroversion,
    coreTraitCompat_comm false u1.openness,
    coreTraitCompat_comm false u1.conscientiousness,
    coreTraitCompat_comm false u1.agreeableness,
    coreTraitCompat_comm false u1.emotional_stability,
    coreTraitCompat_comm false u1.growth_mindset,
    coreTraitCompat_comm false u1.collectivism,
    coreTraitCompat_comm false u1.spiritual_inclination]

lemma lifestyleCompatibilityScore_comm (u1 u2 : TraitVec) :
    lifestyleCompatibilityScore u1 u2 = lifestyleCompatibilityScore u2 u1 := by
  unfold lifestyleCompatibilityScore
  rw [lifestyleTraitCompat_comm u1.veganism_support,
    lifestyleTraitCompat_comm u1.environmental_consciousness,
    lifestyleTraitCompat_comm u1.health_focus,
    lifestyleTraitCompat_comm u1.social_justice]

lemma criticalMismatch_comm (u1 u2 : TraitVec) :
    criticalMismatch u1 u2 = criticalMismatch u2 u1 := by
  unfold criticalMismatch
  rw [dealBreaker_comm u1.veganism_support,
    dealBreaker_comm u1.environmental_consciousness,
    dealBreaker_comm u1.social_justice]

lemma extroBonus_comm (u1 u2 : TraitVec) : extroBonus u1 u2 = extroBonus u2 u1 := by
  unfold extroBonus
  rw [abs_sub_comm (rawVal u1.extroversion)]

lemma growthBonus_comm (u1 u2 : TraitVec) : growthBonus u1 u2 = growthBonus u2 u1 := by
  unfold growthBonus
  simp only [and_comm]

lemma finalScore_comm (u1 u2 : TraitVec) : finalScore u1 u2 = finalScore u2 u1 := by
  unfold finalScore
  rw [corePersonalityScore_comm, lifestyleCompatibilityScore_comm,
    criticalMismatch_comm, extroBonus_comm, growthBonus_comm]

lemma traitScoresOf_comm (u1 u2 : TraitVec) : traitScoresOf u1 u2 = traitScoresOf u2 u1 := by
  unfold traitScoresOf
  rw [coreTraitCompat_comm true u1.extroversion,
    coreTraitCompat_comm false u1.openness,
    coreTraitCompat_comm false u1.conscientiousness,
    coreTraitCompat_comm false u1.agreeableness,
    coreTraitCompat_comm false u1.emotional_stability,
    coreTraitCompat_comm false u1.growth_mindset,
    coreTraitCompat_comm false u1.collectivism,
    coreTraitCompat_comm false u1.spiritual_inclination,
    lifestyleTraitCompat_comm u1.veganism_support,
    lifestyleTraitCompat_comm u1.environmental_consciousness,
    lifestyleTraitCompat_comm u1.health_focus,
    lifestyleTraitCompat_comm u1.social_justice]

/-! Behaviour on identical trait vectors. -/

lemma coreTraitCompat_self (e : Bool) (a : Option ℚ) : coreTraitCompat e a a = 1 := by
  unfold coreTraitCompat adjDiff
  have h1 : |normVal a - normVal a| = 0 := by rw [sub_self, abs_zero]
  rw [h1]
  have h2 : ¬ (e = true ∧ |(0 : ℚ) - 3/10| < 1/10) := by
    rintro ⟨-, h⟩
    rw [zero_sub, abs_neg, abs_of_nonneg (by norm_num : (0 : ℚ) ≤ 3/10)] at h
    norm_num at h
  rw [if_neg h2]
  norm_num

lemma lifestyleTraitCompat_self (a : Option ℚ) : lifestyleTraitCompat a a = 1 := by
  unfold lifestyleTraitCompat
  rw [sub_self, abs_zero]
  norm_num

lemma dealBreaker_self (a : Option ℚ) : dealBreaker a a = false := by
  unfold dealBreaker
  rw [decide_eq_false_iff_not]
  rintro ⟨h, -⟩
  rw [sub_self, abs_zero] at h
  norm_num at h

lemma corePersonalityScore_self (v : TraitVec) : corePersonalityScore v v = 60 := by
  unfold corePersonalityScore
  simp only [coreTraitCompat_self]
  norm_num

lemma lifestyleCompatibilityScore_self (v : TraitVec) :
    lifestyleCompatibilityScore v v = 40 := by
  unfold lifestyleCompatibilityScore
  simp only [lifestyleTraitCompat_self]
  norm_num

lemma criticalMismatch_self (v : TraitVec) : criticalMismatch v v = false := by
  unfold criticalMismatch
  simp only [dealBreaker_self, Bool.or_self]

lemma extroBonus_self (v : TraitVec) : extroBonus v v = 0 := by
  unfold extroBonus
  rw [sub_self, abs_zero, zero_sub, abs_neg,
    abs_of_nonneg (by norm_num : (0 : ℚ) ≤ 3/10),
    if_neg (by norm_num : ¬ (3/10 : ℚ) < 1/10)]

/-- C1: the pairwise compatibility breakdown is symmetric in the two trait
vectors: overall, personality, lifestyle and every per-trait score agree
between `(A, B)` and `(B, A)`. -/
theorem compatibility_symmetric (u1 u2 : TraitVec) :
    calculateCompatibilityScores u1 u2 = calculateCompatibilityScores u2 u1 := by
  unfold calculateCompatibilityScores
  rw [finalScore_comm, corePersonalityScore_comm, lifestyleCompatibilityScore_comm,
    traitScoresOf_comm]

/-- C2: when both parties have the same trait vector the overall score is
exactly 100 (personality 60, lifestyle 40, no deal-breaker possible, bonuses
clamped away). -/
theorem compatibility_identity (v : TraitVec) :
    (calculateCompatibilityScores v v).overallScore = 100 ∧
    (calculateCompatibilityScores v v).personalityScore = 60 ∧
    (calculateCompatibilityScores v v).lifestyleScore = 40 := by
  have hf : finalScore v v = 100 + growthBonus v v := by
    unfold finalScore
    rw [corePersonalityScore_self, lifestyleCompatibilityScore_self,
      criticalMismatch_self, extroBonus_self]
    norm_num
  refine ⟨?_, ?_, ?_⟩
  · show jsRound (min 100 (max 0 (finalScore v v))) = 100
    rw [hf]
    unfold growthBonus
    split_ifs
    · norm_num [jsRound, min_def, max_def]
    · norm_num [jsRound, min_def, max_def]
  · show jsRound (corePersonalityScore v v) = 60
    rw [corePersonalityScore_self]
    norm_num [jsRound]
  · show jsRound (lifestyleCompatibilityScore v v) = 40
    rw [lifestyleCompatibilityScore_self]
    norm_num [jsRound]

/-! The source rounds after clamping (`Math.round(Math.min(100, Math.max(0, s)))`)
while the spec words it as `clamp(round(total), 0, 100)`; the two agree because
rounding is monotone and fixes the integer clamp bounds. -/

lemma jsRound_mono {a b : ℚ} (h : a ≤ b) : jsRound a ≤ jsRound b := by
  unfold jsRound
  exact Int.floor_le_floor (by linarith)

lemma jsRound_zero : jsRound 0 = 0 := by norm_num [jsRound]

lemma jsRound_hundred : jsRound 100 = 100 := by norm_num [jsRound]

lemma jsRound_clamp (x : ℚ) :
    jsRound (min 100 (max 0 x)) = max 0 (min 100 (jsRound x)) := by
  rcases le_total x 0 with hx | hx
  · rw [max_eq_left hx, min_eq_right (by norm_num : (0 : ℚ) ≤ 100), jsRound_zero]
    have h1 : jsRound x ≤ 0 := jsRound_zero ▸ jsRound_mono hx
    rw [min_eq_right (le_trans h1 (by norm_num)), max_eq_left h1]
  · rw [max_eq_right hx]
    rcases le_total x 100 with hx2 | hx2
    · rw [min_eq_right hx2]
      have h1 : 0 ≤ jsRound x := jsRound_zero ▸ jsRound_mono hx
      have h2 : jsRound x ≤ 100 := jsRound_hundred ▸ jsRound_mono hx2
      rw [min_eq_right h2, max_eq_right h1]
    · rw [min_eq_left hx2, jsRound_hundred]
      have h2 : 100 ≤ jsRound x := jsRound_hundred ▸ jsRound_mono hx2
      rw [min_eq_left h2, max_eq_right (by norm_num : (0 : ℤ) ≤ 100)]

/-- C3: a deal-breaker on veganism_support, environmental_consciousness or
social_justice (normalised difference above 0.6 and larger value above 0.8)
halves personality + lifestyle before the two +10 bonuses are added, and the
overall score is clamp(round(total), 0, 100). -/
theorem dealbreaker_halves_before_bonuses (u1 u2 : TraitVec)
    (h : (3/5 < |normVal u1.veganism_support - normVal u2.veganism_support| ∧
            4/5 < max (normVal u1.veganism_support) (normVal u2.veganism_support)) ∨
         (3/5 < |normVal u1.environmental_consciousness - normVal u2.environmental_consciousness| ∧
            4/5 < max (normVal u1.environmental_consciousness) (normVal u2.environmental_consciousness)) ∨
         (3/5 < |normVal u1.social_justice - normVal u2.social_justice| ∧
            4/5 < max (normVal u1.social_justice) (normVal u2.social_justice))) :
    (calculateCompatibilityScores u1 u2).overallScore =
      max 0 (min 100 (jsRound
        ((corePersonalityScore u1 u2 + lifestyleCompatibilityScore u1 u2) * (1/2)
          + extroBonus u1 u2 + growthBonus u1 u2))) := by
  have hm : criticalMismatch u1 u2 = true := by
    unfold criticalMismatch
    rcases h with h | h | h
    · have hd : dealBreaker u1.veganism_support u2.veganism_support = true := by
        unfold dealBreaker
        rw [decide_eq_true_iff]
        exact ⟨h.1, lt_max_iff.mp h.2⟩
      simp [hd]
    · have hd : dealBreaker u1.environmental_consciousness u2.environmental_consciousness = true := by
        unfold dealBreaker
        rw [decide_eq_true_iff]
        exact ⟨h.1, lt_max_iff.mp h.2⟩
      simp [hd]
    · have hd : dealBreaker u1.social_justice u2.social_justice = true := by
        unfold dealBreaker
        rw [decide_eq_true_iff]
        exact ⟨h.1, lt_max_iff.mp h.2⟩
      simp [hd]
  show jsRound (min 100 (max 0 (finalScore u1 u2))) = _
  rw [jsRound_clamp]
  unfold finalScore
  rw [hm, if_pos rfl]

/-- Scenario 2, party A: all core traits 0.80, lifestyle traits 0.20 except
veganism_support 0.10. -/
def scenario2A : TraitVec :=
  ⟨some (4/5), some (4/5), some (4/5), some (4/5), some (4/5), some (4/5), some (4/5),
   some (4/5), some (1/10), some (1/5), some (1/5), some (1/5)⟩

/-- Scenario 2, party B: same as A but veganism_support 0.95. -/
def scenario2B : TraitVec :=
  ⟨some (4/5), some (4/5), some (4/5), some (4/5), some (4/5), some (4/5), some (4/5),
   some (4/5), some (19/20), some (1/5), some (1/5), some (1/5)⟩

/-- Witness for C3 at the concrete deal-breaker scenario (A veganism 0.10,
B veganism 0.95). -/
theorem dealbreaker_halves_before_bonuses_witness :
    ((3/5 < |normVal scenario2A.veganism_support - normVal scenario2B.veganism_support| ∧
        4/5 < max (normVal scenario2A.veganism_support) (normVal scenario2B.veganism_support)) ∨
      (3/5 < |normVal scenario2A.environmental_consciousness - normVal scenario2B.environmental_consciousness| ∧
        4/5 < max (normVal scenario2A.environmental_consciousness) (normVal scenario2B.environmental_consciousness)) ∨
      (3/5 < |normVal scenario2A.social_justice - normVal scenario2B.social_justice| ∧
        4/5 < max (normVal scenario2A.social_justice) (normVal scenario2B.social_justice))) ∧
    (calculateCompatibilityScores scenario2A scenario2B).overallScore =
      max 0 (min 100 (jsRound
        ((corePersonalityScore scenario2A scenario2B
            + lifestyleCompatibilityScore scenario2A scenario2B) * (1/2)
          + extroBonus scenario2A scenario2B + growthBonus scenario2A scenario2B))) :=
  ⟨Or.inl (by norm_num [normVal, rawVal, scenario2A, scenario2B, abs, max_def]),
   dealbreaker_halves_before_bonuses scenario2A scenario2B
     (Or.inl (by norm_num [normVal, rawVal, scenario2A, scenario2B, abs, max_def]))⟩

/-! C10: where the 0-or-null to 0.5 normalisation does and does not apply. -/

/-- Every trait column replaced by its `Number(x) || 0.5` normalisation; the
claim reads the code as computing everything from these values. -/
def normalizeVec (v : TraitVec) : TraitVec where
  extroversion := some (normVal v.extroversion)
  openness := some (normVal v.openness)
  conscientiousness := some (normVal v.conscientiousness)
  agreeableness := some (normVal v.agreeableness)
  emotional_stability := some (normVal v.emotional_stability)
  growth_mindset := some (normVal v.growth_mindset)
  collectivism := some (normVal v.collectivism)
  spiritual_inclination := some (normVal v.spiritual_inclination)
  veganism_support := some (normVal v.veganism_support)
  environmental_consciousness := some (normVal v.environmental_consciousness)
  health_focus := some (normVal v.health_focus)
  social_justice := some (normVal v.social_justice)

lemma normVal_some_normVal (x : Option ℚ) : normVal (some (normVal x)) = normVal x := by
  unfold normVal rawVal
  cases x with
  | none => norm_num
  | some v =>
    by_cases hv : v = 0
    · subst hv
      norm_num
    · simp [hv]

lemma coreTraitCompat_norm (e : Bool) (a b : Option ℚ) :
    coreTraitCompat e (some (normVal a)) (some (normVal b)) = coreTraitCompat e a b := by
  unfold coreTraitCompat
  rw [normVal_some_normVal, normVal_some_normVal]

lemma lifestyleTraitCompat_norm (a b : Option ℚ) :
    lifestyleTraitCompat (some (normVal a)) (some (normVal b)) = lifestyleTraitCompat a b := by
  unfold lifestyleTraitCompat
  rw [normVal_some_normVal, normVal_some_normVal]

lemma dealBreaker_norm (a b : Option ℚ) :
    dealBreaker (some (normVal a)) (some (normVal b)) = dealBreaker a b := by
  unfold dealBreaker
  rw [normVal_some_normVal, normVal_some_normVal]

/-- C10 (amended): the 0-or-null to 0.5 replacement governs the per-trait
similarity loops and the deal-breaker checks — the personality sub-score,
lifestyle sub-score, per-trait breakdown and criticalMismatch flag are
unchanged if every column is pre-normalised, and a (0, 0.95) lifestyle pair
is scored as (0.5, 0.95), which does not trigger the deal-breaker. (The two
bonuses, by contrast, read raw column values.) -/
theorem neutral_replacement_in_trait_loops (u1 u2 : TraitVec) :
    (calculateCompatibilityScores u1 u2).personalityScore =
      (calculateCompatibilityScores (normalizeVec u1) (normalizeVec u2)).personalityScore ∧
    (calculateCompatibilityScores u1 u2).lifestyleScore =
      (calculateCompatibilityScores (normalizeVec u1) (normalizeVec u2)).lifestyleScore ∧
    (calculateCompatibilityScores u1 u2).traitScores =
      (calculateCompatibilityScores (normalizeVec u1) (normalizeVec u2)).traitScores ∧
    criticalMismatch u1 u2 = criticalMismatch (normalizeVec u1) (normalizeVec u2) ∧
    dealBreaker (some 0) (some (19/20)) = false := by
  refine ⟨?_, ?_, ?_, ?_, ?_⟩
  · simp only [calculateCompatibilityScores, corePersonalityScore, normalizeVec,
      coreTraitCompat_norm]
  · simp only [calculateCompatibilityScores, lifestyleCompatibilityScore, normalizeVec,
      lifestyleTraitCompat_norm]
  · simp only [calculateCompatibilityScores, traitScoresOf, normalizeVec,
      coreTraitCompat_norm, lifestyleTraitCompat_norm]
  · simp only [criticalMismatch, normalizeVec, dealBreaker_norm]
  · unfold dealBreaker
    rw [decide_eq_false_iff_not]
    rintro ⟨hd, -⟩
    rw [show normVal (some 0) = 1/2 by norm_num [normVal, rawVal],
      show normVal (some (19/20)) = 19/20 by norm_num [normVal, rawVal]] at hd
    rw [abs_sub_comm, abs_of_nonneg (by norm_num : (0 : ℚ) ≤ 19/20 - 1/2)] at hd
    norm_num at hd

/-- Left party for the C10 counterexample: extroversion column 0, every
other column 0.5. -/
def rawZeroVec : TraitVec :=
  ⟨some 0, some (1/2), some (1/2), some (1/2), some (1/2), some (1/2), some (1/2),
   some (1/2), some (1/2), some (1/2), some (1/2), some (1/2)⟩

/-- Right party for the C10 counterexample: extroversion 0.35, every other
column 0.5. -/
def extro35Vec : TraitVec :=
  ⟨some (7/20), some (1/2), some (1/2), some (1/2), some (1/2), some (1/2), some (1/2),
   some (1/2), some (1/2), some (1/2), some (1/2), some (1/2)⟩

/-- C10 counterexample: the complementary-extroversion bonus is computed from
the raw column values, so replacing a 0 column by 0.5 before the whole
calculation changes the overall score (100 with the raw pair, since
|0 - 0.35| earns the +10 bonus, versus 99 after normalisation). -/
theorem neutral_replacement_not_global :
    (calculateCompatibilityScores rawZeroVec extro35Vec).overallScore ≠
      (calculateCompatibilityScores (normalizeVec rawZeroVec) (normalizeVec extro35Vec)).overallScore := by
  norm_num [calculateCompatibilityScores, finalScore, corePersonalityScore,
    lifestyleCompatibilityScore, criticalMismatch, dealBreaker, coreTraitCompat,
    lifestyleTraitCompat, adjDiff, extroBonus, growthBonus, normVal, rawVal,
    jsRound, normalizeVec, rawZeroVec, extro35Vec, abs, min_def, max_def]

/-! ## Trait Scoring Engine
Embedding of `PersonalityService.calculatePersonalityScores`: answers carry a
question id and an option index, questions carry a weight table keyed by the
option letter, and sums/counts are accumulated per trait name. -/

structure PersonalityAnswer where
  questionId : String
  selectedOption : String
  optionIndex : Nat
deriving DecidableEq, Repr

structure PersonalityQuestion where
  id : String
  scoringWeights : Option (List (String × List (String × ℚ)))
deriving DecidableEq, Repr

/-- Association-list lookup, as `Map.get` on a map built from string keys. -/
def lookupA {α : Type} (l : List (String × α)) (k : String) : Option α :=
  (l.find? (fun p => p.1 == k)).map Prod.snd

/-- JS `String.fromCharCode(65 + optionIndex)`: 0 is the key A, 1 is B, and so on. -/
def optionKey (idx : Nat) : String := String.mk [Char.ofNat (65 + idx)]

/-- Add one weight-table entry: `sum[trait] += weight; count[trait] += 1`. -/
def addTraitWeight (acc : (String → ℚ) × (String → Nat)) (tw : String × ℚ) :
    (String → ℚ) × (String → Nat) :=
  (fun t => if t = tw.1 then acc.1 t + tw.2 else acc.1 t,
   fun t => if t = tw.1 then acc.2 t + 1 else acc.2 t)

/-- Process one answer: silently skip an unknown question, a question without
weights, or an option letter outside the table, else accumulate its entries. -/
def processAnswer (questionMap : List (String × PersonalityQuestion))
    (acc : (String → ℚ) × (String → Nat)) (answer : PersonalityAnswer) :
    (String → ℚ) × (String → Nat) :=
  match lookupA questionMap answer.questionId with
  | none => acc
  | some q =>
    match q.scoringWeights with
    | none => acc
    | some weights =>
      match lookupA weights (optionKey answer.optionIndex) with
      | none => acc
      | some optionWeights => optionWeights.foldl addTraitWeight acc

/-- The accumulated per-trait sums and counts over all answers. -/
def traitAccOf (answers : List PersonalityAnswer)
    (questionMap : List (String × PersonalityQuestion)) : (String → ℚ) × (String → Nat) :=
  answers.foldl (processAnswer questionMap) (fun _ => 0, fun _ => 0)

/-- JS `Math.round(x * 100) / 100`: round to 2 decimal places. -/
def round2 (x : ℚ) : ℚ := (jsRound (x * 100) : ℚ) / 100

/-- Final per-trait score: the rounded mean when any answer contributed,
otherwise the neutral default 0.5. -/
def scoreOfTrait (acc : (String → ℚ) × (String → Nat)) (t : String) : ℚ :=
  if 0 < acc.2 t then round2 (acc.1 t / (acc.2 t : ℚ)) else 1/2

/-- The 12 trait names iterated by the engine. -/
def traitList : List String :=
  ["extroversion", "openness", "conscientiousness", "agreeableness",
   "emotional_stability", "growth_mindset", "collectivism", "spiritual_inclination",
   "veganism_support", "environmental_consciousness", "health_focus", "social_justice"]

structure PersonalityScores where
  extroversion : ℚ
  openness : ℚ
  conscientiousness : ℚ
  agreeableness : ℚ
  emotional_stability : ℚ
  growth_mindset : ℚ
  collectivism : ℚ
  spiritual_inclination : ℚ
  veganism_support : ℚ
  environmental_consciousness : ℚ
  health_focus : ℚ
  social_justice : ℚ
deriving DecidableEq, Repr

/-- Embedding of `PersonalityService.calculatePersonalityScores`. -/
def calculatePersonalityScores (answers : List PersonalityAnswer)
    (questionMap : List (String × PersonalityQuestion)) : PersonalityScores where
  extroversion := scoreOfTrait (traitAccOf answers questionMap) ("extroversion")
  openness := scoreOfTrait (traitAccOf answers questionMap) ("openness")
  conscientiousness := scoreOfTrait (traitAccOf answers questionMap) ("conscientiousness")
  agreeableness := scoreOfTrait (traitAccOf answers questionMap) ("agreeableness")
  emotional_stability := scoreOfTrait (traitAccOf answers questionMap) ("emotional_stability")
  growth_mindset := scoreOfTrait (traitAccOf answers questionMap) ("growth_mindset")
  collectivism := scoreOfTrait (traitAccOf answers questionMap) ("collectivism")
  spiritual_inclination := scoreOfTrait (traitAccOf answers questionMap) ("spiritual_inclination")
  veganism_support := scoreOfTrait (traitAccOf answers questionMap) ("veganism_support")
  environmental_consciousness := scoreOfTrait (traitAccOf answers questionMap) ("environmental_consciousness")
  health_focus := scoreOfTrait (traitAccOf answers questionMap) ("health_focus")
  social_justice := scoreOfTrait (traitAccOf answers questionMap) ("social_justice")

/-- Hypothesis of the range property: every weight in every option table of
every question lies in [0, 1]. -/
def WeightsInRange (questionMap : List (String × PersonalityQuestion)) : Prop :=
  ∀ p ∈ questionMap, ∀ w ∈ p.2.scoringWeights.getD [], ∀ tw ∈ w.2, 0 ≤ tw.2 ∧ tw.2 ≤ 1

instance (questionMap : List (String × PersonalityQuestion)) :
    Decidable (WeightsInRange questionMap) := by
  unfold WeightsInRange
  infer_instance

/-- Invariant carried through the accumulation: each sum is nonnegative and
at most the matching count. -/
def AccBounded (acc : (String → ℚ) × (String → Nat)) : Prop :=
  ∀ t, 0 ≤ acc.1 t ∧ acc.1 t ≤ (acc.2 t : ℚ)

lemma accBounded_init : AccBounded (fun _ => (0 : ℚ), fun _ => (0 : Nat)) := by
  intro t
  constructor
  · exact le_refl 0
  · norm_num

lemma lookupA_mem {α : Type} {l : List (String × α)} {k : String} {v : α}
    (h : lookupA l k = some v) : ∃ p ∈ l, p.2 = v := by
  unfold lookupA at h
  rcases Option.map_eq_some'.mp h with ⟨p, hp, hv⟩
  exact ⟨p, List.mem_of_find?_eq_some hp, hv⟩

lemma accBounded_add (acc : (String → ℚ) × (String → Nat)) (tw : String × ℚ)
    (hw : 0 ≤ tw.2 ∧ tw.2 ≤ 1) (h : AccBounded acc) : AccBounded (addTraitWeight acc tw) := by
  intro t
  unfold addTraitWeight
  dsimp only
  by_cases ht : t = tw.1
  · rw [if_pos ht, if_pos ht]
    obtain ⟨h1, h2⟩ := h t
    refine ⟨add_nonneg h1 hw.1, ?_⟩
    push_cast
    linarith [hw.2]
  · rw [if_neg ht, if_neg ht]
    exact h t

lemma accBounded_foldl (l : List (String × ℚ)) (hl : ∀ tw ∈ l, 0 ≤ tw.2 ∧ tw.2 ≤ 1) :
    ∀ acc, AccBounded acc → AccBounded (l.foldl addTraitWeight acc) := by
  induction l with
  | nil => exact fun acc h => h
  | cons x xs ih =>
    intro acc h
    exact ih (fun tw htw => hl tw (List.mem_cons_of_mem x htw)) _
      (accBounded_add acc x (hl x (List.mem_cons_self x xs)) h)

lemma accBounded_process (questionMap : List (String × PersonalityQuestion))
    (hq : WeightsInRange questionMap) (acc : (String → ℚ) × (String → Nat))
    (h : AccBounded acc) (a : PersonalityAnswer) :
    AccBounded (processAnswer questionMap acc a) := by
  unfold processAnswer
  cases hfind : lookupA questionMap a.questionId with
  | none => exact h
  | some q =>
    dsimp only
    cases hw : q.scoringWeights with
    | none => exact h
    | some weights =>
      dsimp only
      cases how : lookupA weights (optionKey a.optionIndex) with
      | none => exact h
      | some ow =>
        dsimp only
        refine accBounded_foldl ow ?_ acc h
        intro tw htw
        obtain ⟨p, hp, hpq⟩ := lookupA_mem hfind
        obtain ⟨w, hwmem, hwow⟩ := lookupA_mem how
        have hall := hq p hp w (by rw [hpq, hw]; exact hwmem)
        exact hall tw (by rw [hwow]; exact htw)

lemma accBounded_traitAcc (answers : List PersonalityAnswer)
    (questionMap : List (String × PersonalityQuestion)) (hq : WeightsInRange questionMap) :
    AccBounded (traitAccOf answers questionMap) := by
  unfold traitAccOf
  have hstep : ∀ acc, AccBounded acc →
      AccBounded (answers.foldl (processAnswer questionMap) acc) := by
    induction answers with
    | nil => exact fun acc h => h
    | cons a rest ih =>
      intro acc h
      exact ih _ (accBounded_process questionMap hq acc h a)
  exact hstep _ accBounded_init

lemma round2_bounds {x : ℚ} (h0 : 0 ≤ x) (h1 : x ≤ 1) : 0 ≤ round2 x ∧ round2 x ≤ 1 := by
  unfold round2 jsRound
  constructor
  · apply div_nonneg _ (by norm_num : (0 : ℚ) ≤ 100)
    have hz : (0 : ℤ) ≤ ⌊x * 100 + 1/2⌋ := by
      have := Int.floor_le_floor (show (0 : ℚ) ≤ x * 100 + 1/2 by linarith)
      rw [Int.floor_zero] at this
      exact this
    exact_mod_cast hz
  · rw [div_le_one (by norm_num : (0 : ℚ) < 100)]
    have hz : ⌊x * 100 + 1/2⌋ ≤ 100 := by
      have h2 := Int.floor_le_floor (show x * 100 + 1/2 ≤ 201/2 by linarith)
      have h3 : ⌊(201/2 : ℚ)⌋ = 100 := by norm_num
      rw [h3] at h2
      exact h2
    exact_mod_cast hz

/-- C4: with every option weight in [0, 1], each of the 12 traits scores the
2-decimal rounding of sum/count when any answer contributed — a value within
[0, 1] — and exactly 0.5 otherwise. -/
theorem trait_scores_formula_and_range (answers : List PersonalityAnswer)
    (questionMap : List (String × PersonalityQuestion)) (hq : WeightsInRange questionMap) :
    ∀ t ∈ traitList,
      ((traitAccOf answers questionMap).2 t = 0 →
        scoreOfTrait (traitAccOf answers questionMap) t = 1/2) ∧
      (0 < (traitAccOf answers questionMap).2 t →
        scoreOfTrait (traitAccOf answers questionMap) t =
          round2 ((traitAccOf answers questionMap).1 t /
            ((traitAccOf answers questionMap).2 t : ℚ)) ∧
        0 ≤ scoreOfTrait (traitAccOf answers questionMap) t ∧
        scoreOfTrait (traitAccOf answers questionMap) t ≤ 1) := by
  intro t ht
  constructor
  · intro h0
    unfold scoreOfTrait
    rw [h0]
    norm_num
  · intro hpos
    have hb := accBounded_traitAcc answers questionMap hq t
    have hden : (0 : ℚ) < ((traitAccOf answers questionMap).2 t : ℚ) := by exact_mod_cast hpos
    have hx0 : 0 ≤ (traitAccOf answers questionMap).1 t /
        ((traitAccOf answers questionMap).2 t : ℚ) := div_nonneg hb.1 (le_of_lt hden)
    have hx1 : (traitAccOf answers questionMap).1 t /
        ((traitAccOf answers questionMap).2 t : ℚ) ≤ 1 := (div_le_one hden).mpr hb.2
    unfold scoreOfTrait
    rw [if_pos hpos]
    exact ⟨rfl, (round2_bounds hx0 hx1).1, (round2_bounds hx0 hx1).2⟩

/-- A one-question map used to witness the trait scoring property. -/
def witnessQuestionMap : List (String × PersonalityQuestion) :=
  [("q1", ⟨"q1", some [("A", [("extroversion", 1)])]⟩)]

def witnessAnswers : List PersonalityAnswer := [⟨"q1", "A", 0⟩]

/-- Witness for C4 at a concrete one-answer submission. -/
theorem trait_scores_formula_and_range_witness :
    WeightsInRange witnessQuestionMap ∧
    ∀ t ∈ traitList,
      ((traitAccOf witnessAnswers witnessQuestionMap).2 t = 0 →
        scoreOfTrait (traitAccOf witnessAnswers witnessQuestionMap) t = 1/2) ∧
      (0 < (traitAccOf witnessAnswers witnessQuestionMap).2 t →
        scoreOfTrait (traitAccOf witnessAnswers witnessQuestionMap) t =
          round2 ((traitAccOf witnessAnswers witnessQuestionMap).1 t /
            ((traitAccOf witnessAnswers witnessQuestionMap).2 t : ℚ)) ∧
        0 ≤ scoreOfTrait (traitAccOf witnessAnswers witnessQuestionMap) t ∧
        scoreOfTrait (traitAccOf witnessAnswers witnessQuestionMap) t ≤ 1) :=
  ⟨by decide, trait_scores_formula_and_range witnessAnswers witnessQuestionMap (by decide)⟩

/-! ## Answer submission and the compatibility cache
State-level embedding of `submitPersonalityAnswers` (the prisma transaction
is modelled as all-or-nothing: an error raised inside the body rolls every
write back) and of the `compatibilityScore` cache table. -/

structure AnswerRow where
  profileId : String
  questionId : String
  selectedOption : String
  optionIndex : Nat
deriving DecidableEq, Repr

structure ProfileRow where
  id : String
  userId : String
  traits : TraitVec
  personality_quiz_completed : Bool
deriving DecidableEq, Repr

structure CacheEntry where
  user1Id : String
  user2Id : String
  overallScore : ℤ
  personalityScore : ℤ
  lifestyleScore : ℤ
  traitScores : TraitScoresRec
  calculatedAt : ℤ
  expiresAt : ℤ
deriving DecidableEq, Repr

structure PersonalityDB where
  profiles : List ProfileRow
  questions : List PersonalityQuestion
  answerRows : List AnswerRow
  cache : List CacheEntry
deriving DecidableEq, Repr

def PersonalityScores.toVec (s : PersonalityScores) : TraitVec where
  extroversion := some s.extroversion
  openness := some s.openness
  conscientiousness := some s.conscientiousness
  agreeableness := some s.agreeableness
  emotional_stability := some s.emotional_stability
  growth_mindset := some s.growth_mindset
  collectivism := some s.collectivism
  spiritual_inclination := some s.spiritual_inclination
  veganism_support := some s.veganism_support
  environmental_consciousness := some s.environmental_consciousness
  health_focus := some s.health_focus
  social_justice := some s.social_justice

/-- The answer-insertion loop of the transaction body: the first answer whose
question id is not in the question map aborts the whole transaction. -/
def insertAnswers (profileId : String) (questionMap : List (String × PersonalityQuestion)) :
    List PersonalityAnswer → Except String (List AnswerRow)
  | [] => Except.ok []
  | a :: rest =>
    match lookupA questionMap a.questionId with
    | none => Except.error ("Question not found: " ++ a.questionId)
    | some _ =>
      match insertAnswers profileId questionMap rest with
      | Except.error e => Except.error e
      | Except.ok rows => Except.ok (⟨profileId, a.questionId, a.selectedOption, a.optionIndex⟩ :: rows)

/-- Embedding of `PersonalityService.submitPersonalityAnswers`: look up the profile, then
in one transaction delete the prior answers, insert the new ones (failing on
any unknown question id), recompute the scores and mark the quiz complete;
afterwards drop every cache entry naming the user. Returns the reported
result together with the post-call database. -/
def submitPersonalityAnswers (db : PersonalityDB) (userId : String)
    (answers : List PersonalityAnswer) : Except String PersonalityScores × PersonalityDB :=
  match db.profiles.find? (fun p => p.userId == userId) with
  | none => (Except.error ("User profile not found"), db)
  | some profile =>
    match insertAnswers profile.id (db.questions.map (fun q => (q.id, q))) answers with
    | Except.error e => (Except.error e, db)
    | Except.ok newRows =>
      let personalityScores :=
        calculatePersonalityScores answers (db.questions.map (fun q => (q.id, q)))
      let db2 : PersonalityDB :=
        { db with
          answerRows := db.answerRows.filter (fun a => !(a.profileId == profile.id)) ++ newRows
          profiles := db.profiles.map (fun p =>
            if p.id == profile.id then
              { p with traits := personalityScores.toVec, personality_quiz_completed := true }
            else p) }
      let db3 : PersonalityDB :=
        { db2 with cache := db2.cache.filter (fun e => !(e.user1Id == userId || e.user2Id == userId)) }
      (Except.ok personalityScores, db3)

lemma insertAnswers_error (profileId : String)
    (questionMap : List (String × PersonalityQuestion)) :
    ∀ answers : List PersonalityAnswer,
      (∃ a ∈ answers, lookupA questionMap a.questionId = none) →
      ∃ msg, insertAnswers profileId questionMap answers = Except.error msg := by
  intro answers
  induction answers with
  | nil =>
    rintro ⟨a, ha, -⟩
    exact absurd ha (List.not_mem_nil a)
  | cons x rest ih =>
    rintro ⟨a, ha, hna⟩
    cases hx : lookupA questionMap x.questionId with
    | none =>
      exact ⟨("Question not found: " ++ x.questionId), by simp only [insertAnswers, hx]⟩
    | some q =>
      rcases List.mem_cons.mp ha with rfl | hmem
      · rw [hna] at hx
        cases hx
      · obtain ⟨msg, hmsg⟩ := ih ⟨a, hmem, hna⟩
        exact ⟨msg, by simp only [insertAnswers, hx, hmsg]⟩

/-- C5: an answer submission containing any unknown question id fails and is
all-or-nothing — the reported result is an error and the database (prior
answers, trait vector, cache) is exactly the one before the call. -/
theorem submit_unknown_question_atomic (db : PersonalityDB) (userId : String)
    (answers : List PersonalityAnswer)
    (h : ∃ a ∈ answers, lookupA (db.questions.map (fun q => (q.id, q))) a.questionId = none) :
    (∃ msg, (submitPersonalityAnswers db userId answers).1 = Except.error msg) ∧
    (submitPersonalityAnswers db userId answers).2 = db := by
  unfold submitPersonalityAnswers
  cases hfind : db.profiles.find? (fun p => p.userId == userId) with
  | none => exact ⟨⟨_, rfl⟩, rfl⟩
  | some profile =>
    dsimp only
    obtain ⟨msg, hmsg⟩ :=
      insertAnswers_error profile.id (db.questions.map (fun q => (q.id, q))) answers h
    rw [hmsg]
    exact ⟨⟨msg, rfl⟩, rfl⟩

/-- Database for the C5 witness: one profile, no questions at all. -/
def c5db : PersonalityDB where
  profiles := [⟨"p1", "u1", ⟨none, none, none, none, none, none, none, none, none, none, none, none⟩, false⟩]
  questions := []
  answerRows := []
  cache := []

def c5answers : List PersonalityAnswer := [⟨"qX", "A", 0⟩]

/-- Witness for C5: submitting an answer for the unknown question qX errors
and leaves the database untouched. -/
theorem submit_unknown_question_atomic_witness :
    (∃ a ∈ c5answers, lookupA (c5db.questions.map (fun q => (q.id, q))) a.questionId = none) ∧
    ((∃ msg, (submitPersonalityAnswers c5db ("u1") c5answers).1 = Except.error msg) ∧
      (submitPersonalityAnswers c5db ("u1") c5answers).2 = c5db) :=
  ⟨by decide, submit_unknown_question_atomic c5db ("u1") c5answers (by decide)⟩

/-! The cache: keys are the sorted pair of user ids, reads honour `expiresAt`,
writes are upserts with a 7-day time-to-live. -/

/-- JS string comparison (lexicographic on code units), as used by
`Array.prototype.sort` on the id pair. -/
def strLtB : List Char → List Char → Bool
  | [], [] => false
  | [], _ :: _ => true
  | _ :: _, [] => false
  | a :: as, b :: bs =>
    if a.val < b.val then true else if b.val < a.val then false else strLtB as bs

def jsStrLe (a b : String) : Bool := !(strLtB b.data a.data)

/-- JS `[user1Id, user2Id].sort()`: the canonical order-independent pair. -/
def sortPair (a b : String) : String × String := if jsStrLe a b then (a, b) else (b, a)

/-- The unique-key predicate `user1Id_user2Id` of the cache table. -/
def cacheKeyMatch (o : String × String) (e : CacheEntry) : Bool :=
  e.user1Id == o.1 && e.user2Id == o.2

/-- Seven days in milliseconds, the cache time-to-live. -/
def sevenDaysMs : ℤ := 604800000

structure CachedReturn where
  userId : String
  overallScore : ℤ
  personalityScore : ℤ
  lifestyleScore : ℤ
  traitScores : TraitScoresRec
deriving DecidableEq, Repr

/-- Embedding of `PersonalityService.getCachedCompatibilityScore`: look the canonical pair
up and return the entry only while `now < expiresAt`. -/
def getCachedCompatibilityScore (cache : List CacheEntry) (now : ℤ)
    (user1Id user2Id : String) : Option CachedReturn :=
  match cache.find? (cacheKeyMatch (sortPair user1Id user2Id)) with
  | some cached =>
    if now < cached.expiresAt then
      some { userId := if user1Id == (sortPair user1Id user2Id).1 then user2Id else user1Id
             overallScore := cached.overallScore
             personalityScore := cached.personalityScore
             lifestyleScore := cached.lifestyleScore
             traitScores := cached.traitScores }
    else none
  | none => none

def mkCacheEntry (o : String × String) (now : ℤ) (compat : CompatBreakdown) : CacheEntry where
  user1Id := o.1
  user2Id := o.2
  overallScore := compat.overallScore
  personalityScore := compat.personalityScore
  lifestyleScore := compat.lifestyleScore
  traitScores := compat.traitScores
  calculatedAt := now
  expiresAt := now + sevenDaysMs

/-- The atomic upsert on the unique pair key. -/
def upsertEntry : List CacheEntry → CacheEntry → List CacheEntry
  | [], e => [e]
  | x :: xs, e =>
    if x.user1Id == e.user1Id && x.user2Id == e.user2Id then e :: xs
    else x :: upsertEntry xs e

/-- Embedding of `PersonalityService.cacheCompatibilityScore`. -/
def cacheCompatibilityScore (cache : List CacheEntry) (now : ℤ)
    (user1Id user2Id : String) (compat : CompatBreakdown) : List CacheEntry :=
  upsertEntry cache (mkCacheEntry (sortPair user1Id user2Id) now compat)

lemma find?_upsertEntry (cache : List CacheEntry) (e : CacheEntry) (o : String × String)
    (h1 : e.user1Id = o.1) (h2 : e.user2Id = o.2) :
    (upsertEntry cache e).find? (cacheKeyMatch o) = some e := by
  have he : cacheKeyMatch o e = true := by
    unfold cacheKeyMatch
    rw [h1, h2]
    simp
  induction cache with
  | nil =>
    simp only [upsertEntry]
    rw [List.find?_cons_of_pos _ he]
  | cons x xs ih =>
    by_cases hx : (x.user1Id == e.user1Id && x.user2Id == e.user2Id) = true
    · simp only [upsertEntry, if_pos hx]
      rw [List.find?_cons_of_pos _ he]
    · simp only [upsertEntry, if_neg hx]
      have hxk : cacheKeyMatch o x = false := by
        unfold cacheKeyMatch
        rw [← h1, ← h2]
        exact Bool.not_eq_true _ ▸ hx
      rw [List.find?_cons_of_neg _ (by rw [hxk]; exact Bool.false_ne_true), ih]

/-- C6: a cache write at time T stores `expiresAt = T + 7 days`, and a read of
the same pair at time `now` returns the stored scores exactly when
`now < T + 7 days` — any later read is a miss. -/
theorem cache_seven_day_ttl (cache : List CacheEntry) (T now : ℤ)
    (user1Id user2Id : String) (compat : CompatBreakdown) :
    getCachedCompatibilityScore (cacheCompatibilityScore cache T user1Id user2Id compat)
        now user1Id user2Id
      = if now < T + sevenDaysMs then
          some { userId := if user1Id == (sortPair user1Id user2Id).1 then user2Id else user1Id
                 overallScore := compat.overallScore
                 personalityScore := compat.personalityScore
                 lifestyleScore := compat.lifestyleScore
                 traitScores := compat.traitScores }
        else none := by
  unfold getCachedCompatibilityScore cacheCompatibilityScore
  rw [find?_upsertEntry cache (mkCacheEntry (sortPair user1Id user2Id) T compat)
    (sortPair user1Id user2Id) rfl rfl]
  rfl

/-! ## Discovery Filter and Ranker
Embedding of `MatchService.getDiscoveryProfiles`. The haversine distance and
the per-candidate compatibility lookup involve transcendental functions and
database state, so both are parameters of the model (`distFn`, `compatFn`);
none of the filtering properties below depend on their values. Calendar dates
are year/month/day triples ordered lexicographically, as the `Date`
comparisons in the query behave for the valid dates involved. -/

inductive Gender
  | MALE
  | FEMALE
  | OTHER
deriving DecidableEq, Repr

inductive GenderPreference
  | MALE
  | FEMALE
  | ALL
deriving DecidableEq, Repr

structure SimpleDate where
  year : ℤ
  month : ℤ
  day : ℤ
deriving DecidableEq, Repr

/-- Chronological comparison of calendar dates. -/
def dateLe (d1 d2 : SimpleDate) : Bool :=
  decide (d1.year < d2.year ∨ (d1.year = d2.year ∧
    (d1.month < d2.month ∨ (d1.month = d2.month ∧ d1.day ≤ d2.day))))

structure MatchPreferences where
  genderPreference : GenderPreference
  minAge : ℤ
  maxAge : ℤ
  maxDistance : Option ℚ
deriving DecidableEq, Repr

structure DiscProfile where
  userId : String
  isDiscoverable : Bool
  gender : Gender
  dateOfBirth : SimpleDate
  latitude : Option ℚ
  longitude : Option ℚ
deriving DecidableEq, Repr

structure DiscoveryDB where
  profiles : List DiscProfile
  preferences : List (String × MatchPreferences)
  likes : List (String × String)
  passes : List (String × String)
  blocks : List (String × String)
deriving DecidableEq, Repr

structure DiscoveryFilters where
  minAge : Option ℤ
  maxAge : Option ℤ
  maxDistance : Option ℚ
  excludeUserIds : Option (List String)
deriving DecidableEq, Repr

/-- JS truthiness of an optional number: absent and 0 are both falsy. -/
def truthyInt (x : Option ℤ) : Bool := !(x.getD 0 == 0)

def truthyRat (x : Option ℚ) : Bool := !(x.getD 0 == 0)

def adhocMinAge (filters : Option DiscoveryFilters) : Option ℤ :=
  filters.bind (fun f => f.minAge)

def adhocMaxAge (filters : Option DiscoveryFilters) : Option ℤ :=
  filters.bind (fun f => f.maxAge)

def adhocMaxDistance (filters : Option DiscoveryFilters) : Option ℚ :=
  filters.bind (fun f => f.maxDistance)

/-- JS `filters?.excludeUserIds || []`. -/
def adhocExcludes (filters : Option DiscoveryFilters) : List String :=
  (filters.bind (fun f => f.excludeUserIds)).getD []

/-- The date-of-birth window of the query: the stored-preference window,
whose `gte`/`lte` bound is then overwritten by a truthy ad-hoc
`maxAge`/`minAge`. -/
def dobWindow (now : SimpleDate) (preferences : MatchPreferences)
    (filters : Option DiscoveryFilters) : SimpleDate × SimpleDate :=
  let base : SimpleDate × SimpleDate :=
    (⟨now.year - preferences.maxAge - 1, now.month, now.day⟩,
     ⟨now.year - preferences.minAge, now.month, now.day⟩)
  if truthyInt (adhocMinAge filters) || truthyInt (adhocMaxAge filters) then
    let w1 : SimpleDate × SimpleDate :=
      if truthyInt (adhocMaxAge filters) then
        (⟨now.year - (adhocMaxAge filters).getD 0 - 1, now.month, now.day⟩, base.2)
      else base
    if truthyInt (adhocMinAge filters) then
      (w1.1, ⟨now.year - (adhocMinAge filters).getD 0, now.month, now.day⟩)
    else w1
  else base

/-- The exclusion list: self, then the receivers of the requester likes,
passes and blocks, then caller-supplied ids. Blocks are only read in the
requester-to-candidate direction. -/
def excludedIdsOf (db : DiscoveryDB) (userId : String)
    (filters : Option DiscoveryFilters) : List String :=
  userId ::
    ((db.likes.filter (fun l => l.1 == userId)).map (fun l => l.2)
      ++ (db.passes.filter (fun l => l.1 == userId)).map (fun l => l.2)
      ++ (db.blocks.filter (fun l => l.1 == userId)).map (fun l => l.2)
      ++ adhocExcludes filters)

def genderOk (preferences : MatchPreferences) (p : DiscProfile) : Bool :=
  match preferences.genderPreference with
  | GenderPreference.ALL => true
  | GenderPreference.MALE => p.gender == Gender.MALE
  | GenderPreference.FEMALE => p.gender == Gender.FEMALE

/-- The `where` clause of the candidate query. -/
def whereOk (db : DiscoveryDB) (userId : String) (preferences : MatchPreferences)
    (now : SimpleDate) (filters : Option DiscoveryFilters) (p : DiscProfile) : Bool :=
  !((excludedIdsOf db userId filters).contains p.userId) && p.isDiscoverable
    && genderOk preferences p
    && dateLe (dobWindow now preferences filters).1 p.dateOfBirth
    && dateLe p.dateOfBirth (dobWindow now preferences filters).2

structure RankedProfile where
  profile : DiscProfile
  compatibility : ℚ
  distance : Option ℚ
deriving DecidableEq, Repr

/-- The response strips the coordinates from each returned profile. -/
def stripCoords (p : DiscProfile) : DiscProfile :=
  { p with latitude := none, longitude := none }

/-- Score and distance decoration of one candidate; distance is computed only
when both parties have truthy coordinates. -/
def rankEntry (compatFn : String → ℚ) (distFn : ℚ → ℚ → ℚ → ℚ → ℚ)
    (currentUser : DiscProfile) (p : DiscProfile) : RankedProfile where
  profile := stripCoords p
  compatibility := compatFn p.userId
  distance :=
    if truthyRat currentUser.latitude && truthyRat currentUser.longitude
        && truthyRat p.latitude && truthyRat p.longitude then
      some (distFn (rawVal currentUser.latitude) (rawVal currentUser.longitude)
        (rawVal p.latitude) (rawVal p.longitude))
    else none

/-- The distance filter: an ad-hoc truthy maxDistance wins, else the stored
one; a missing distance always passes. -/
def distanceOk (preferences : MatchPreferences) (filters : Option DiscoveryFilters)
    (r : RankedProfile) : Bool :=
  if truthyRat (adhocMaxDistance filters) && r.distance.isSome then
    decide (r.distance.getD 0 ≤ (adhocMaxDistance filters).getD 0)
  else if truthyRat preferences.maxDistance && r.distance.isSome then
    decide (r.distance.getD 0 ≤ preferences.maxDistance.getD 0)
  else true

/-- Stable insertion keeping compatibility scores descending. -/
def insertByScore (r : RankedProfile) : List RankedProfile → List RankedProfile
  | [] => [r]
  | x :: xs => if x.compatibility < r.compatibility then r :: x :: xs else x :: insertByScore r xs

def sortByScoreDesc : List RankedProfile → List RankedProfile
  | [] => []
  | x :: xs => insertByScore x (sortByScoreDesc xs)

/-- Embedding of `MatchService.getDiscoveryProfiles`: resolve the requester and stored
preferences, query an oversized batch of candidates, decorate with score and
distance, filter by distance, sort by score and truncate. -/
def getDiscoveryProfiles (compatFn : String → ℚ) (distFn : ℚ → ℚ → ℚ → ℚ → ℚ)
    (db : DiscoveryDB) (now : SimpleDate) (userId : String) (limit : Nat)
    (filters : Option DiscoveryFilters) : Except String (List RankedProfile) :=
  match db.profiles.find? (fun p => p.userId == userId) with
  | none => Except.error ("Profile not found")
  | some currentUser =>
    if !currentUser.isDiscoverable then Except.error ("Discovery is disabled")
    else
      match lookupA db.preferences userId with
      | none => Except.error ("Match preferences not set")
      | some preferences =>
        Except.ok ((sortByScoreDesc
          (((db.profiles.filter (whereOk db userId preferences now filters)).take (limit * 3)).map
              (rankEntry compatFn distFn currentUser)
            |>.filter (distanceOk preferences filters))).take limit)

lemma mem_insertByScore {a r : RankedProfile} {l : List RankedProfile}
    (h : a ∈ insertByScore r l) : a = r ∨ a ∈ l := by
  induction l with
  | nil =>
    simp only [insertByScore, List.mem_singleton] at h
    exact Or.inl h
  | cons x xs ih =>
    simp only [insertByScore] at h
    by_cases hc : (x.compatibility < r.compatibility) = True
    · rw [if_pos (by simpa using hc)] at h
      rcases List.mem_cons.mp h with h1 | h1
      · exact Or.inl h1
      · exact Or.inr h1
    · rw [if_neg (by simpa using hc)] at h
      rcases List.mem_cons.mp h with h1 | h1
      · exact Or.inr (h1 ▸ List.mem_cons_self x xs)
      · rcases ih h1 with h2 | h2
        · exact Or.inl h2
        · exact Or.inr (List.mem_cons_of_mem x h2)

lemma mem_sortByScoreDesc {a : RankedProfile} {l : List RankedProfile}
    (h : a ∈ sortByScoreDesc l) : a ∈ l := by
  induction l with
  | nil =>
    simp only [sortByScoreDesc] at h
    exact h
  | cons x xs ih =>
    simp only [sortByScoreDesc] at h
    rcases mem_insertByScore h with h1 | h1
    · exact h1 ▸ List.mem_cons_self x xs
    · exact List.mem_cons_of_mem x (ih h1)

/-- Deconstruction shared by the discovery theorems: a returned entry comes
from a candidate that passed the full `where` clause. -/
lemma discovery_member_whereOk {compatFn : String → ℚ} {distFn : ℚ → ℚ → ℚ → ℚ → ℚ}
    {db : DiscoveryDB} {now : SimpleDate} {userId : String} {limit : Nat}
    {filters : Option DiscoveryFilters} {res : List RankedProfile} {preferences : MatchPreferences}
    (hp : lookupA db.preferences userId = some preferences)
    (h : getDiscoveryProfiles compatFn distFn db now userId limit filters = Except.ok res) :
    ∀ r ∈ res, ∃ p : DiscProfile, r.profile = stripCoords p ∧
      whereOk db userId preferences now filters p = true := by
  intro r hr
  unfold getDiscoveryProfiles at h
  cases hfind : db.profiles.find? (fun p => p.userId == userId) with
  | none => rw [hfind] at h; cases h
  | some currentUser =>
    rw [hfind] at h
    dsimp only at h
    by_cases hdisc : (!currentUser.isDiscoverable) = true
    · rw [if_pos hdisc] at h; cases h
    · rw [if_neg hdisc, hp] at h
      dsimp only at h
      have hres := (Except.ok.injEq _ _).mp h
      subst hres
      have h1 := List.mem_of_mem_take hr
      have h2 := mem_sortByScoreDesc h1
      have h3 := (List.mem_filter.mp h2).1
      obtain ⟨p, hpmem, hpr⟩ := List.mem_map.mp h3
      have h4 := List.mem_of_mem_take hpmem
      have h5 := (List.mem_filter.mp h4).2
      exact ⟨p, by rw [← hpr]; rfl, h5⟩

lemma not_mem_of_whereOk {db : DiscoveryDB} {userId : String}
    {preferences : MatchPreferences} {now : SimpleDate} {filters : Option DiscoveryFilters}
    {p : DiscProfile} (h : whereOk db userId preferences now filters p = true) :
    p.userId ∉ excludedIdsOf db userId filters := by
  unfold whereOk at h
  simp only [Bool.and_eq_true, Bool.not_eq_true'] at h
  intro hmem
  have hcontains : (excludedIdsOf db userId filters).contains p.userId = true :=
    List.elem_eq_true_of_mem hmem
  rw [hcontains] at h
  cases h.1.1.1.1

/-- C7 (amended): a returned discovery profile is never the requester, never
already liked or passed by the requester, never blocked by the requester, and
never in the caller-supplied exclusion list. (Users who blocked the requester
are not excluded: the query reads blocks in one direction only.) -/
theorem discovery_excludes (compatFn : String → ℚ) (distFn : ℚ → ℚ → ℚ → ℚ → ℚ)
    (db : DiscoveryDB) (now : SimpleDate) (userId : String) (limit : Nat)
    (filters : Option DiscoveryFilters) (res : List RankedProfile)
    (preferences : MatchPreferences)
    (hp : lookupA db.preferences userId = some preferences)
    (h : getDiscoveryProfiles compatFn distFn db now userId limit filters = Except.ok res) :
    ∀ r ∈ res, r.profile.userId ≠ userId ∧
      (userId, r.profile.userId) ∉ db.likes ∧
      (userId, r.profile.userId) ∉ db.passes ∧
      (userId, r.profile.userId) ∉ db.blocks ∧
      r.profile.userId ∉ adhocExcludes filters := by
  intro r hr
  obtain ⟨p, hstrip, hwhere⟩ := discovery_member_whereOk hp h r hr
  have huid : r.profile.userId = p.userId := by rw [hstrip]; rfl
  have hnotmem := not_mem_of_whereOk hwhere
  rw [huid]
  unfold excludedIdsOf at hnotmem
  refine ⟨?_, ?_, ?_, ?_, ?_⟩
  · intro heq
    exact hnotmem (heq ▸ List.mem_cons_self _ _)
  · intro hlike
    refine hnotmem (List.mem_cons_of_mem _
      (List.mem_append_left _ (List.mem_append_left _ (List.mem_append_left _ ?_))))
    exact List.mem_map.mpr
      ⟨(userId, p.userId), List.mem_filter.mpr ⟨hlike, beq_self_eq_true userId⟩, rfl⟩
  · intro hpass
    refine hnotmem (List.mem_cons_of_mem _
      (List.mem_append_left _ (List.mem_append_left _ (List.mem_append_right _ ?_))))
    exact List.mem_map.mpr
      ⟨(userId, p.userId), List.mem_filter.mpr ⟨hpass, beq_self_eq_true userId⟩, rfl⟩
  · intro hblock
    refine hnotmem (List.mem_cons_of_mem _
      (List.mem_append_left _ (List.mem_append_right _ ?_)))
    exact List.mem_map.mpr
      ⟨(userId, p.userId), List.mem_filter.mpr ⟨hblock, beq_self_eq_true userId⟩, rfl⟩
  · intro hex
    exact hnotmem (List.mem_cons_of_mem _ (List.mem_append_right _ hex))

/-- Stored preferences accepting any gender, ages 18 to 40, no distance cap. -/
def prefsAll : MatchPreferences := ⟨GenderPreference.ALL, 18, 40, none⟩

def reqA : DiscProfile := ⟨"A", true, Gender.MALE, ⟨2000, 1, 1⟩, none, none⟩

def profB : DiscProfile := ⟨"B", true, Gender.FEMALE, ⟨2000, 1, 1⟩, none, none⟩

def profC : DiscProfile := ⟨"C", true, Gender.FEMALE, ⟨2000, 1, 1⟩, none, none⟩

def profD : DiscProfile := ⟨"D", true, Gender.FEMALE, ⟨2000, 1, 1⟩, none, none⟩

/-- Scenario-3 database: requester A, candidate B already liked by A,
candidate C blocked by A, candidate D eligible. -/
def c7wdb : DiscoveryDB where
  profiles := [reqA, profB, profC, profD]
  preferences := [("A", prefsAll)]
  likes := [(("A"), ("B"))]
  passes := []
  blocks := [(("A"), ("C"))]

/-- Witness for C7: with one liked and one requester-blocked candidate and
limit 1, only the eligible candidate D is returned, and it meets every
exclusion guarantee. -/
theorem discovery_excludes_witness :
    lookupA c7wdb.preferences ("A") = some prefsAll ∧
    getDiscoveryProfiles (fun _ => 50) (fun _ _ _ _ => 0) c7wdb ⟨2026, 9, 11⟩ ("A") 1 none
      = Except.ok [{ profile := profD, compatibility := 50, distance := none }] ∧
    ∀ r ∈ [({ profile := profD, compatibility := 50, distance := none } : RankedProfile)],
      r.profile.userId ≠ ("A") ∧
      (("A"), r.profile.userId) ∉ c7wdb.likes ∧
      (("A"), r.profile.userId) ∉ c7wdb.passes ∧
      (("A"), r.profile.userId) ∉ c7wdb.blocks ∧
      r.profile.userId ∉ adhocExcludes none :=
  ⟨by decide, by rfl,
   discovery_excludes (fun _ => 50) (fun _ _ _ _ => 0) c7wdb ⟨2026, 9, 11⟩ ("A") 1 none
     [{ profile := profD, compatibility := 50, distance := none }] prefsAll
     (by decide) (by rfl)⟩

/-- Database in which B has blocked the requester A (and nothing else). -/
def c7xdb : DiscoveryDB where
  profiles := [reqA, profB]
  preferences := [("A", prefsAll)]
  likes := []
  passes := []
  blocks := [(("B"), ("A"))]

/-- C7 counterexample: the discovery query only excludes blocks issued by the
requester, so a candidate who blocked the requester is still returned. -/
theorem discovery_reverse_block_returned :
    (("B"), ("A")) ∈ c7xdb.blocks ∧
    getDiscoveryProfiles (fun _ => 50) (fun _ _ _ _ => 0) c7xdb ⟨2026, 9, 11⟩ ("A") 1 none
      = Except.ok [{ profile := profB, compatibility := 50, distance := none }] :=
  ⟨by decide, by rfl⟩

/-- The `gte` bound the query actually uses: a truthy ad-hoc maxAge replaces
the stored-preference bound outright. -/
def effectiveGte (now : SimpleDate) (preferences : MatchPreferences)
    (filters : Option DiscoveryFilters) : SimpleDate :=
  if truthyInt (adhocMaxAge filters) then
    ⟨now.year - (adhocMaxAge filters).getD 0 - 1, now.month, now.day⟩
  else ⟨now.year - preferences.maxAge - 1, now.month, now.day⟩

/-- The `lte` bound the query actually uses: a truthy ad-hoc minAge replaces
the stored-preference bound outright. -/
def effectiveLte (now : SimpleDate) (preferences : MatchPreferences)
    (filters : Option DiscoveryFilters) : SimpleDate :=
  if truthyInt (adhocMinAge filters) then
    ⟨now.year - (adhocMinAge filters).getD 0, now.month, now.day⟩
  else ⟨now.year - preferences.minAge, now.month, now.day⟩

lemma dobWindow_eq (now : SimpleDate) (preferences : MatchPreferences)
    (filters : Option DiscoveryFilters) :
    dobWindow now preferences filters =
      (effectiveGte now preferences filters, effectiveLte now preferences filters) := by
  unfold dobWindow effectiveGte effectiveLte
  cases h1 : truthyInt (adhocMinAge filters) <;> cases h2 : truthyInt (adhocMaxAge filters) <;>
    simp [h1, h2]

/-- C8 (amended): the date of birth of every returned profile lies in the window
whose bounds are the stored-preference bounds with any truthy ad-hoc bound
substituted in their place — the ad-hoc filter replaces the stored bound
rather than narrowing it. -/
theorem discovery_age_window (compatFn : String → ℚ) (distFn : ℚ → ℚ → ℚ → ℚ → ℚ)
    (db : DiscoveryDB) (now : SimpleDate) (userId : String) (limit : Nat)
    (filters : Option DiscoveryFilters) (res : List RankedProfile)
    (preferences : MatchPreferences)
    (hp : lookupA db.preferences userId = some preferences)
    (h : getDiscoveryProfiles compatFn distFn db now userId limit filters = Except.ok res) :
    ∀ r ∈ res,
      dateLe (effectiveGte now preferences filters) r.profile.dateOfBirth = true ∧
      dateLe r.profile.dateOfBirth (effectiveLte now preferences filters) = true := by
  intro r hr
  obtain ⟨p, hstrip, hwhere⟩ := discovery_member_whereOk hp h r hr
  have hdob : r.profile.dateOfBirth = p.dateOfBirth := by rw [hstrip]; rfl
  unfold whereOk at hwhere
  rw [dobWindow_eq] at hwhere
  simp only [Bool.and_eq_true] at hwhere
  rw [hdob]
  exact ⟨hwhere.1.2, hwhere.2⟩

def c8prefs : MatchPreferences := ⟨GenderPreference.ALL, 20, 30, none⟩

/-- An ad-hoc filter asking for candidates up to age 50 — wider than the
stored preference bound of 30. -/
def c8filters : DiscoveryFilters := ⟨none, some 50, none, none⟩

/-- A candidate aged 45 at the reference date 2026-09-11. -/
def profE : DiscProfile := ⟨"E", true, Gender.FEMALE, ⟨1981, 1, 1⟩, none, none⟩

def c8db : DiscoveryDB where
  profiles := [reqA, profE]
  preferences := [("A", c8prefs)]
  likes := []
  passes := []
  blocks := []

/-- C8 counterexample: candidate E is older than the stored preference
window allows (born before its `gte` bound), yet the ad-hoc maxAge = 50
filter admits E — the ad-hoc bound widened the stored range. -/
theorem discovery_adhoc_widens :
    dateLe ⟨(2026 : ℤ) - c8prefs.maxAge - 1, 9, 11⟩ profE.dateOfBirth = false ∧
    getDiscoveryProfiles (fun _ => 50) (fun _ _ _ _ => 0) c8db ⟨2026, 9, 11⟩ ("A") 1
        (some c8filters)
      = Except.ok [{ profile := profE, compatibility := 50, distance := none }] :=
  ⟨by decide, by rfl⟩

/-- Witness for C8 (amended) on the same concrete instance. -/
theorem discovery_age_window_witness :
    lookupA c8db.preferences ("A") = some c8prefs ∧
    getDiscoveryProfiles (fun _ => 50) (fun _ _ _ _ => 0) c8db ⟨2026, 9, 11⟩ ("A") 1
        (some c8filters)
      = Except.ok [{ profile := profE, compatibility := 50, distance := none }] ∧
    ∀ r ∈ [({ profile := profE, compatibility := 50, distance := none } : RankedProfile)],
      dateLe (effectiveGte ⟨2026, 9, 11⟩ c8prefs (some c8filters)) r.profile.dateOfBirth = true ∧
      dateLe r.profile.dateOfBirth (effectiveLte ⟨2026, 9, 11⟩ c8prefs (some c8filters)) = true :=
  ⟨by decide, by rfl,
   discovery_age_window (fun _ => 50) (fun _ _ _ _ => 0) c8db ⟨2026, 9, 11⟩ ("A") 1
     (some c8filters) [{ profile := profE, compatibility := 50, distance := none }] c8prefs
     (by decide) (by rfl)⟩

/-! ## Match Transition Manager
Small-step embedding of `MatchService.likeProfile`. Each `await` of the
source is one atomic step against the store; the function runs no
transaction, so steps of two concurrent calls may interleave freely. A
schedule is a list of booleans choosing which call performs its next step. -/

deriving instance DecidableEq for Except

structure MatchState where
  likes : List (String × String)
  blocks : List (String × String)
  matchRows : List (String × String)
  conversations : List (String × String)
  matchActivities : List (String × String)
  likeActivities : List (String × String)
deriving DecidableEq, Repr

/-- One in-flight `likeProfile(sender, receiver)` call: its program counter,
the reciprocity it observed, and its final result (`ok isMatch` or error). -/
structure LikeCall where
  sender : String
  receiver : String
  pc : Nat
  mutualFound : Bool
  result : Option (Except String Bool)
deriving DecidableEq, Repr

def mkLikeCall (s r : String) : LikeCall := ⟨s, r, 0, false, none⟩

/-- One step of `likeProfile`, following the source order: self check and
duplicate-like read; block read; like insert; reciprocal-like read; match
insert when mutual; conversation insert; match activities; like activity and
return. -/
def likeStep (st : MatchState) (c : LikeCall) : MatchState × LikeCall :=
  match c.pc with
  | 0 =>
    if c.sender == c.receiver then
      (st, { c with pc := 99, result := some (Except.error ("Cannot like your own profile")) })
    else if st.likes.contains (c.sender, c.receiver) then
      (st, { c with pc := 99, result := some (Except.error ("Profile already liked")) })
    else (st, { c with pc := 1 })
  | 1 =>
    if st.blocks.contains (c.sender, c.receiver) || st.blocks.contains (c.receiver, c.sender) then
      (st, { c with pc := 99, result := some (Except.error ("Cannot like this profile")) })
    else (st, { c with pc := 2 })
  | 2 => ({ st with likes := st.likes ++ [(c.sender, c.receiver)] }, { c with pc := 3 })
  | 3 => (st, { c with pc := 4, mutualFound := st.likes.contains (c.receiver, c.sender) })
  | 4 =>
    if c.mutualFound then
      ({ st with matchRows := st.matchRows ++ [sortPair c.sender c.receiver] }, { c with pc := 5 })
    else (st, { c with pc := 7 })
  | 5 => ({ st with conversations := st.conversations ++ [sortPair c.sender c.receiver] },
          { c with pc := 6 })
  | 6 => ({ st with matchActivities :=
              st.matchActivities ++ [(c.sender, c.receiver), (c.receiver, c.sender)] },
          { c with pc := 7 })
  | 7 => ({ st with likeActivities := st.likeActivities ++ [(c.sender, c.receiver)] },
          { c with pc := 99, result := some (Except.ok c.mutualFound) })
  | _ => (st, c)

/-- Run two concurrent `likeProfile` calls under a schedule: `true` steps the
first call, `false` the second. -/
def runSchedule : List Bool → MatchState → LikeCall → LikeCall →
    MatchState × LikeCall × LikeCall
  | [], st, c1, c2 => (st, c1, c2)
  | true :: rest, st, c1, c2 =>
    let s := likeStep st c1
    runSchedule rest s.1 s.2 c2
  | false :: rest, st, c1, c2 =>
    let s := likeStep st c2
    runSchedule rest s.1 c1 s.2

def emptyMatchState : MatchState := ⟨[], [], [], [], [], []⟩

/-- A sequential schedule: the first call runs to completion, then the
second. Eight steps cover the longest (mutual) path. -/
def seqSchedule : List Bool := List.replicate 8 true ++ List.replicate 8 false

/-- The racing schedule: both calls pass their duplicate checks and insert
their like rows before either checks reciprocity, so both observe a mutual
like and both create a Match and a Conversation. -/
def raceSchedule : List Bool :=
  [true, true, true, false, false, false, true, false,
   true, true, true, true, false, false, false, false]

/-- C9 at its failing input: under the racing interleaving of `like(A, B)`
and `like(B, A)` the store ends with TWO Match rows and TWO Conversation
rows for the canonical pair (A, B), both calls reporting a successful match
— the reciprocity check and the Match insert are not one atomic unit.
Sequentially the same two calls produce exactly one Match and one
Conversation. -/
theorem like_race_two_matches :
    (runSchedule raceSchedule emptyMatchState (mkLikeCall ("A") ("B"))
        (mkLikeCall ("B") ("A"))).1.matchRows = [(("A"), ("B")), (("A"), ("B"))] ∧
    (runSchedule raceSchedule emptyMatchState (mkLikeCall ("A") ("B"))
        (mkLikeCall ("B") ("A"))).1.conversations = [(("A"), ("B")), (("A"), ("B"))] ∧
    (runSchedule raceSchedule emptyMatchState (mkLikeCall ("A") ("B"))
        (mkLikeCall ("B") ("A"))).2.1.result = some (Except.ok true) ∧
    (runSchedule raceSchedule emptyMatchState (mkLikeCall ("A") ("B"))
        (mkLikeCall ("B") ("A"))).2.2.result = some (Except.ok true) ∧
    (runSchedule seqSchedule emptyMatchState (mkLikeCall ("A") ("B"))
        (mkLikeCall ("B") ("A"))).1.matchRows = [(("A"), ("B"))] ∧
    (runSchedule seqSchedule emptyMatchState (mkLikeCall ("A") ("B"))
        (mkLikeCall ("B") ("A"))).1.conversations = [(("A"), ("B"))] := by
  refine ⟨by decide, by decide, by decide, by decide, by decide, by decide⟩

end DatingCore
